import Mathlib

/-!
Verification development for the `regex-validify` library
(`src/validators/regExp.ts`).

The library is a single class `RegExpValidator`.  Every public operation
selects (or builds) a regular-expression rule and delegates to the private
method `validate`, which implements the timeout guard, the verbose/default
output split and the catch-all error handling.

The embedding below models:
  * strings as `List Char`,
  * a RegExp value as a total whole-string test (`Rule.pattern`), with a
    second constructor `Rule.notPattern` for the non-RegExp values that can
    reach `validate` at runtime (an `undefined` produced by a missed table
    lookup, or a truthy non-RegExp value inherited from `Object.prototype`);
    calling `.test` on such a value throws a `TypeError`, modelled as
    `Except.error`,
  * wall-clock time by an explicit `elapsed` argument: the number of
    milliseconds between `startTime = Date.now()` at the start of
    `validate` and the subsequent `Date.now()` read inside the guard,
  * each regular expression of the claims as a structural decision
    function transcribed clause by clause from the pattern literal
    (ECMAScript semantics, whole-string anchored match), and the
    variable-width postal/crypto patterns through a small list-of-remainders
    matcher `RMatcher`.
-/

namespace RegexValidify

/-! ## Character classes used by the embedded patterns -/

/-- The regex class `[0-9]`, also written `\d`. -/
def isDigitC (c : Char) : Bool := '0' ≤ c && c ≤ '9'

/-- The regex class `[0-9a-fA-F]` (hexadecimal digit, either case). -/
def isHexDigit (c : Char) : Bool :=
  isDigitC c || ('a' ≤ c && c ≤ 'f') || ('A' ≤ c && c ≤ 'F')

/-- The regex class `[A-Z]`. -/
def isUpperAZ (c : Char) : Bool := 'A' ≤ c && c ≤ 'Z'

/-- The ECMAScript `.` atom (without the `s` flag): any character except a
LineTerminator, i.e. except LF, CR, LINE SEPARATOR and PARAGRAPH SEPARATOR. -/
def isDotChar (c : Char) : Bool :=
  !(c = '\n' || c = '\r' || c = '\u2028' || c = '\u2029')

/-! ## Output mode, result record, engine output -/

/-- TypeScript `ValidatorMode = 'verbose' | undefined`; the `undefined`
case is represented by `none` at use sites (`Option ValidatorMode`). -/
inductive ValidatorMode where
  | verbose
deriving DecidableEq, Repr

/-- TypeScript interface `ValidationResult`.  `matches` is the
`RegExpMatchArray | null` value of `value.match(pattern)`; for the anchored
whole-string rules embedded here the match data is the full input, so it is
modelled as the matched string.  The outer `Option` is presence of the
property, the inner one is array-versus-`null`.  The source field name
`matches` is a reserved word in Lean, hence the trailing underscore. -/
structure ValidationResult where
  isValid : Bool
  message : Option String := none
  matches_ : Option (Option (List Char)) := none
deriving DecidableEq, Repr

/-- The union type `boolean | ValidationResult` returned by `validate`. -/
inductive ValidateOutput where
  | plain (b : Bool)
  | result (r : ValidationResult)
deriving DecidableEq, Repr

/-- The second argument of `validate`.  A real `RegExp` is a total
whole-string test.  `notPattern` stands for a runtime value that is not a
RegExp (the `undefined` of a missed sub-table lookup, or an
`Object.prototype` member reached through the prototype chain); invoking
`.test` on it throws, carrying the given message. -/
inductive Rule where
  | pattern (test : List Char → Bool)
  | notPattern (errMsg : String)

/-- `pattern.test(value)`: evaluation of the rule, which may throw. -/
def ruleTest (rule : Rule) (value : List Char) : Except String Bool :=
  match rule with
  | .pattern t => .ok (t value)
  | .notPattern e => .error e

/-- `this.options.timeout || 5000`: a falsy (zero) configured timeout is
replaced by 5000 inside the guard. -/
def effectiveTimeout (t : Int) : Int := if t = 0 then 5000 else t

/-- Constructor merge `{ timeout: 5000, ...options }`: a caller-supplied
timeout overrides the 5000 default. -/
def validatorTimeout (optTimeout : Option Int) : Int := optTimeout.getD 5000

/-- The private `validate(value, pattern, mode)` of `RegExpValidator`,
with the configured timeout `t` and the elapsed time of the guard read
made explicit.  Transcribed branch by branch from the source:
the try block first compares `Date.now() - startTime` against
`this.options.timeout || 5000` and returns the timeout outcome, then runs
`pattern.test(value)`; a throw anywhere in the block is caught and turned
into the error outcome for the requested mode. -/
def validate (t : Int) (elapsed : Nat) (value : List Char) (rule : Rule)
    (mode : Option ValidatorMode) : ValidateOutput :=
  if (elapsed : Int) > effectiveTimeout t then
    match mode with
    | some .verbose =>
        .result { isValid := false, message := some "Validation timeout exceeded" }
    | none => .plain false
  else
    match ruleTest rule value with
    | .ok isValid =>
        match mode with
        | some .verbose =>
            .result { isValid := isValid,
                      matches_ := some (if isValid then some value else none),
                      message := some (if isValid then "Validation successful"
                                       else "Validation failed") }
        | none => .plain isValid
    | .error e =>
        match mode with
        | some .verbose =>
            .result { isValid := false, message := some ("Validation error: " ++ e) }
        | none => .plain false

/-! ## Coordinate patterns (`complexPatterns.coordinates`) -/

/-- The optional fraction-and-end tail `(?:\.\d+)?$`. -/
def fracTail : List Char → Bool
  | [] => true
  | c :: ds => c = '.' && !ds.isEmpty && ds.all isDigitC

/-- The optional zero-fraction-and-end tail `(?:\.0+)?$`. -/
def zeroFracTail : List Char → Bool
  | [] => true
  | c :: ds => c = '.' && !ds.isEmpty && ds.all (· = '0')

/-- The alternation body of the latitude pattern
`^-?([1-8]?\d(?:\.\d+)?|90(?:\.0+)?)$` after the optional minus sign:
either an optional `[1-8]` digit, one `\d` digit and the fraction tail,
or the literal `90` and the zero-fraction tail. -/
def latBody (s : List Char) : Bool :=
  (match s with
   | c :: rest => isDigitC c && fracTail rest
   | [] => false) ||
  (match s with
   | c :: d :: rest => ('1' ≤ c && c ≤ '8') && isDigitC d && fracTail rest
   | _ => false) ||
  (match s with
   | c :: d :: rest => c = '9' && d = '0' && zeroFracTail rest
   | _ => false)

/-- The alternation body of the longitude pattern
`^-?((1[0-7]|[1-9])?\d(?:\.\d+)?|180(?:\.0+)?)$` after the optional minus:
an optional `1[0-7]`-or-`[1-9]` group, one `\d` digit and the fraction
tail, or the literal `180` and the zero-fraction tail. -/
def lngBody (s : List Char) : Bool :=
  (match s with
   | c :: rest => isDigitC c && fracTail rest
   | [] => false) ||
  (match s with
   | c :: c2 :: d :: rest =>
       c = '1' && ('0' ≤ c2 && c2 ≤ '7') && isDigitC d && fracTail rest
   | _ => false) ||
  (match s with
   | c :: d :: rest => ('1' ≤ c && c ≤ '9') && isDigitC d && fracTail rest
   | _ => false) ||
  (match s with
   | c :: c2 :: c3 :: rest =>
       c = '1' && c2 = '8' && c3 = '0' && zeroFracTail rest
   | _ => false)

/-- The leading `-?` of both coordinate patterns. -/
def optNeg (body : List Char → Bool) (s : List Char) : Bool :=
  body s ||
  (match s with
   | c :: rest => c = '-' && body rest
   | [] => false)

/-- `complexPatterns.coordinates.latitude = /^-?([1-8]?\d(?:\.\d+)?|90(?:\.0+)?)$/`. -/
def latitudeTest : List Char → Bool := optNeg latBody

/-- `complexPatterns.coordinates.longitude = /^-?((1[0-7]|[1-9])?\d(?:\.\d+)?|180(?:\.0+)?)$/`. -/
def longitudeTest : List Char → Bool := optNeg lngBody

/-- `isValidCoordinates(lat, lng, mode)`.  Both sub-validations receive the
caller mode, then the results are combined with the source ternary
`typeof latValid === 'boolean' ? (latValid && typeof lngValid === 'boolean' ? lngValid : false) : false`
(read with the ECMAScript grouping
`cond1 ? ((latValid && cond2) ? lngValid : false) : false`),
and the mode decides the output shape; the verbose message is the fixed
string of the source.  Note that when a sub-result is a verbose record the
`typeof` test fails and the combination is `false`. -/
def coordCombine (latValid lngValid : ValidateOutput) : Bool :=
  match latValid with
  | .plain latB =>
      if latB then
        match lngValid with
        | .plain lngB => lngB
        | .result _ => false
      else false
  | .result _ => false

/-- See `coordCombine`; `elapsedLat` and `elapsedLng` are the guard-read
delays of the two inner `validate` calls. -/
def isValidCoordinates (t : Int) (elapsedLat elapsedLng : Nat)
    (lat lng : List Char) (mode : Option ValidatorMode) : ValidateOutput :=
  let latValid := validate t elapsedLat lat (.pattern latitudeTest) mode
  let lngValid := validate t elapsedLng lng (.pattern longitudeTest) mode
  match mode with
  | some .verbose =>
      .result { isValid := coordCombine latValid lngValid,
                message := some "Both latitude and longitude must be valid" }
  | none => .plain (coordCombine latValid lngValid)

/-! ## Parameterized date validation (`isValidDate`) -/

/-- The day group `(0[1-9]|[12][0-9]|3[01])` on its two characters. -/
def dayPair (a b : Char) : Bool :=
  (a = '0' && ('1' ≤ b && b ≤ '9')) ||
  ((a = '1' || a = '2') && isDigitC b) ||
  (a = '3' && (b = '0' || b = '1'))

/-- The month group `(0[1-9]|1[0-2])` on its two characters. -/
def monthPair (a b : Char) : Bool :=
  (a = '0' && ('1' ≤ b && b ≤ '9')) ||
  (a = '1' && ('0' ≤ b && b ≤ '2'))

/-- The trailing year `\d{4}$`. -/
def year4 (s : List Char) : Bool := s.length = 4 && s.all isDigitC

/-- `/^(0[1-9]|[12][0-9]|3[01])\/(0[1-9]|1[0-2])\/\d{4}$/` (`DD/MM/YYYY`);
this is also `patterns.date`. -/
def ddmmyyyyTest : List Char → Bool
  | d1 :: d2 :: s1 :: m1 :: m2 :: s2 :: ys =>
      s1 = '/' && s2 = '/' && dayPair d1 d2 && monthPair m1 m2 && year4 ys
  | _ => false

/-- `/^(0[1-9]|1[0-2])\/(0[1-9]|[12][0-9]|3[01])\/\d{4}$/` (`MM/DD/YYYY`). -/
def mmddyyyyTest : List Char → Bool
  | m1 :: m2 :: s1 :: d1 :: d2 :: s2 :: ys =>
      s1 = '/' && s2 = '/' && monthPair m1 m2 && dayPair d1 d2 && year4 ys
  | _ => false

/-- `/^\d{4}-(0[1-9]|1[0-2])-(0[1-9]|[12][0-9]|3[01])$/` (`YYYY-MM-DD`). -/
def yyyymmddDashTest : List Char → Bool
  | y1 :: y2 :: y3 :: y4 :: s1 :: m1 :: m2 :: s2 :: d1 :: d2 :: [] =>
      [y1, y2, y3, y4].all isDigitC && s1 = '-' && s2 = '-' &&
      monthPair m1 m2 && dayPair d1 d2
  | _ => false

/-- `/^\d{4}\/(0[1-9]|1[0-2])\/(0[1-9]|[12][0-9]|3[01])$/` (`YYYY/MM/DD`). -/
def yyyymmddSlashTest : List Char → Bool
  | y1 :: y2 :: y3 :: y4 :: s1 :: m1 :: m2 :: s2 :: d1 :: d2 :: [] =>
      [y1, y2, y3, y4].all isDigitC && s1 = '/' && s2 = '/' &&
      monthPair m1 m2 && dayPair d1 d2
  | _ => false

/-- The own property names of `Object.prototype`.  The rule tables of the
source (`patterns` inside `isValidDate`, `complexPatterns.postalCode`,
`complexPatterns.crypto`) are plain object literals, so an index read with
one of these keys finds the inherited member — a truthy non-RegExp value —
through the prototype chain instead of `undefined`. -/
def objectProtoKeys : List String :=
  ["constructor", "hasOwnProperty", "isPrototypeOf", "propertyIsEnumerable",
   "toLocaleString", "toString", "valueOf", "__proto__",
   "__defineGetter__", "__defineSetter__", "__lookupGetter__", "__lookupSetter__"]

/-- The lookup `patterns[format] || patterns['DD/MM/YYYY']` of
`isValidDate`: one of the four own keys selects its pattern; a key
inherited from `Object.prototype` yields a truthy non-RegExp value, so the
fallback is not taken and the later `.test` call throws; any other key
yields `undefined` and falls back to the `DD/MM/YYYY` pattern. -/
def dateRule (format : String) : Rule :=
  if format = "DD/MM/YYYY" then .pattern ddmmyyyyTest
  else if format = "MM/DD/YYYY" then .pattern mmddyyyyTest
  else if format = "YYYY-MM-DD" then .pattern yyyymmddDashTest
  else if format = "YYYY/MM/DD" then .pattern yyyymmddSlashTest
  else if format ∈ objectProtoKeys then
    .notPattern "TypeError: pattern.test is not a function"
  else .pattern ddmmyyyyTest

/-- `isValidDate(date, format = 'DD/MM/YYYY', mode)`. -/
def isValidDate (t : Int) (elapsed : Nat) (date : List Char) (format : String)
    (mode : Option ValidatorMode) : ValidateOutput :=
  validate t elapsed date (dateRule format) mode

/-! ## UUID validation (`isValidUUID`) -/

/-- The version-nibble class `[1-5]` of the UUID pattern. -/
def isVersionNibble (c : Char) : Bool := '1' ≤ c && c ≤ '5'

/-- The variant-nibble class `[89ab]` of the UUID pattern, under the `i`
flag, hence also `A` and `B`. -/
def isVariantNibble (c : Char) : Bool :=
  c = '8' || c = '9' || c = 'a' || c = 'b' || c = 'A' || c = 'B'

/-- Consume exactly `n` characters of class `p` (a `{n}` repetition of a
character class), returning the remainder on success. -/
def takeClass (p : Char → Bool) : Nat → List Char → Option (List Char)
  | 0, s => some s
  | _ + 1, [] => none
  | n + 1, c :: rest => if p c then takeClass p n rest else none

/-- Consume one literal `-`. -/
def expectDash : List Char → Option (List Char)
  | [] => none
  | c :: rest => if c = '-' then some rest else none

/-- The sequential structure of the UUID pattern
`/^[0-9a-f]{8}-[0-9a-f]{4}-[1-5][0-9a-f]{3}-[89ab][0-9a-f]{3}-[0-9a-f]{12}$/i`,
generic in the version-nibble and variant-nibble classes (`isValidUUID`
instantiates them with `[1-5]` and `[89ab]`; the shape-only variants use
a hex digit).  Under the `i` flag `[0-9a-f]` is a hex digit of either
case. -/
def uuidChain (ver var : Char → Bool) (s : List Char) : Option (List Char) :=
  (takeClass isHexDigit 8 s).bind fun s1 =>
  (expectDash s1).bind fun s2 =>
  (takeClass isHexDigit 4 s2).bind fun s3 =>
  (expectDash s3).bind fun s4 =>
  (takeClass ver 1 s4).bind fun s5 =>
  (takeClass isHexDigit 3 s5).bind fun s6 =>
  (expectDash s6).bind fun s7 =>
  (takeClass var 1 s7).bind fun s8 =>
  (takeClass isHexDigit 3 s8).bind fun s9 =>
  (expectDash s9).bind fun s10 =>
  takeClass isHexDigit 12 s10

/-- The anchored whole-string test of the UUID pattern. -/
def uuidTest (s : List Char) : Bool :=
  decide (uuidChain isVersionNibble isVariantNibble s = some [])

/-- `isValidUUID(uuid, mode)`. -/
def isValidUUID (t : Int) (elapsed : Nat) (uuid : List Char)
    (mode : Option ValidatorMode) : ValidateOutput :=
  validate t elapsed uuid (.pattern uuidTest) mode

/-- Spec-side notion for C7: a string of otherwise correct UUID shape,
i.e. the same 8-4-4-4-12 dashed hex layout but with the version and
variant positions only required to be hex digits. -/
def uuidShapeSpec (s : List Char) : Bool :=
  decide (uuidChain isHexDigit isHexDigit s = some [])

/-- Spec-side notion for C7: the version nibble (character 14, the first
hex digit of the third dashed group) is in `1`–`5`. -/
def versionNibbleOk (s : List Char) : Bool :=
  (s[14]?).any isVersionNibble

/-- Spec-side notion for C7: the variant nibble (character 19, the first
hex digit of the fourth dashed group) is one of `8`, `9`, `a`, `b`,
case-insensitively. -/
def variantNibbleOk (s : List Char) : Bool :=
  (s[19]?).any isVariantNibble

/-! ## Strong-password policy (`isStrongPassword`) -/

/-- The caller-supplied options object of `isStrongPassword`; a `none`
field is an absent property. -/
structure StrongPasswordOptions where
  minLength : Option Int := none
  requireUppercase : Option Bool := none
  requireNumbers : Option Bool := none
  requireSpecialChars : Option Bool := none

/-- The merged policy `{ minLength: 8, requireUppercase: true,
requireNumbers: true, requireSpecialChars: true, ...options }`. -/
structure MergedPasswordOptions where
  minLength : Int
  requireUppercase : Bool
  requireNumbers : Bool
  requireSpecialChars : Bool

/-- The spread merge of caller overrides onto the baseline. -/
def mergeOptions (o : StrongPasswordOptions) : MergedPasswordOptions :=
  { minLength := o.minLength.getD 8,
    requireUppercase := o.requireUppercase.getD true,
    requireNumbers := o.requireNumbers.getD true,
    requireSpecialChars := o.requireSpecialChars.getD true }

/-- The password special-character class `[!@#$%^&*]`. -/
def isSpecialPwChar (c : Char) : Bool :=
  c = '!' || c = '@' || c = '#' || c = '$' || c = '%' || c = '^' || c = '&' || c = '*'

/-- A lookahead `(?=.*[p])` evaluated at the start of the string: some
character satisfying `p` is reachable across `.`-matchable characters. -/
def lookaheadDotStar (p : Char → Bool) : List Char → Bool
  | [] => false
  | c :: rest => p c || (isDotChar c && lookaheadDotStar p rest)

/-- ECMAScript semantics of the final chunk `.\x7bn,\x7d$` of the
assembled pattern source (after the lookaheads), where `n` is the merged
`minLength` spliced in by the template literal.
For `n ≥ 0` this is the quantifier `at least n repetitions of .` followed
by the end anchor: since the match is anchored at both ends, the whole
remainder must consist of `.`-matchable characters and have length at
least `n`.
For `n < 0` the text `\x7bn,\x7d` is not a valid quantifier (the
character after `\x7b` is not a decimal digit), so — per the ECMAScript
Annex B pattern grammar applied to patterns without the `u` flag — the
brace sequence is parsed as five literal characters; the chunk then
matches exactly one `.`-matchable character followed by the literal text
`\x7bn,\x7d`. -/
def dotMinBody (n : Int) (s : List Char) : Bool :=
  if 0 ≤ n then
    s.all isDotChar && decide (n ≤ (s.length : Int))
  else
    match s with
    | c :: rest => isDotChar c && decide (rest = ("\x7b" ++ toString n ++ ",\x7d").toList)
    | [] => false

/-- The string-concatenated pattern of `isStrongPassword`:
`'^'`, then `(?=.*[A-Z])` if `requireUppercase`, then `(?=.*\d)` if
`requireNumbers`, then `(?=.*[!@#$%^&*])` if `requireSpecialChars`, then
`.\x7bminLength,\x7d$`.  The lookaheads are width-zero tests at position
0, so the compiled pattern tests their conjunction with the body. -/
def strongPasswordTest (opts : MergedPasswordOptions) (s : List Char) : Bool :=
  (!opts.requireUppercase || lookaheadDotStar isUpperAZ s) &&
  (!opts.requireNumbers || lookaheadDotStar isDigitC s) &&
  (!opts.requireSpecialChars || lookaheadDotStar isSpecialPwChar s) &&
  dotMinBody opts.minLength s

/-- `isStrongPassword(password, options = \x7b\x7d, mode)`: merge the
options, assemble the pattern, delegate to `validate`. -/
def isStrongPassword (t : Int) (elapsed : Nat) (password : List Char)
    (options : StrongPasswordOptions) (mode : Option ValidatorMode) : ValidateOutput :=
  validate t elapsed password (.pattern (strongPasswordTest (mergeOptions options))) mode

/-! ## A small matcher for the variable-width postal and crypto patterns

A matcher maps an input to the list of possible remainders after matching
a prefix; a pattern accepts a string (anchored `^...$`) when some
remainder is empty.  This transcribes each regex one combinator per
construct. -/

/-- Possible remainders after one constrained character (a regex class). -/
def rchar (p : Char → Bool) : List Char → List (List Char)
  | [] => []
  | c :: rest => if p c then [rest] else []

/-- The empty regex. -/
def rempty (s : List Char) : List (List Char) := [s]

/-- Regex concatenation. -/
def rseq (m1 m2 : List Char → List (List Char)) (s : List Char) : List (List Char) :=
  (m1 s).flatMap m2

/-- A `?` optional. -/
def ropt (m : List Char → List (List Char)) (s : List Char) : List (List Char) :=
  m s ++ [s]

/-- An exact `{n}` repetition. -/
def rrep (m : List Char → List (List Char)) : Nat → List Char → List (List Char)
  | 0 => rempty
  | n + 1 => rseq m (rrep m n)

/-- An `{0,n}` repetition. -/
def rrepUpTo (m : List Char → List (List Char)) : Nat → List Char → List (List Char)
  | 0 => rempty
  | n + 1 => ropt (rseq m (rrepUpTo m n))

/-- An `{lo,hi}` repetition. -/
def rrepRange (m : List Char → List (List Char)) (lo hi : Nat) : List Char → List (List Char) :=
  rseq (rrep m lo) (rrepUpTo m (hi - lo))

/-- Anchored whole-string acceptance. -/
def rmatch (m : List Char → List (List Char)) (s : List Char) : Bool :=
  (m s).any List.isEmpty

/-! ## Postal-code patterns (`complexPatterns.postalCode`) -/

/-- A letter of either case: `[A-Z]` under the `i` flag. -/
def isLetterCI (c : Char) : Bool := ('A' ≤ c && c ≤ 'Z') || ('a' ≤ c && c ≤ 'z')

/-- `US: /^\d{5}(-\d{4})?$/`. -/
def usPostalTest : List Char → Bool :=
  rmatch (rseq (rrep (rchar isDigitC) 5)
    (ropt (rseq (rchar (· = '-')) (rrep (rchar isDigitC) 4))))

/-- `UK: /^[A-Z]{1,2}\d[A-Z\d]? ?\d[A-Z]{2}$/i`. -/
def ukPostalTest : List Char → Bool :=
  rmatch (rseq (rrepRange (rchar isLetterCI) 1 2)
    (rseq (rchar isDigitC)
      (rseq (ropt (rchar fun c => isLetterCI c || isDigitC c))
        (rseq (ropt (rchar (· = ' ')))
          (rseq (rchar isDigitC) (rrep (rchar isLetterCI) 2))))))

/-- First class of the CA pattern, `[ABCEGHJ-NPRSTVXY]` under `i`. -/
def caLetter1 (c : Char) : Bool := "ABCEGHJKLMNPRSTVXY".toList.contains c.toUpper

/-- Second and third class of the CA pattern, `[ABCEGHJ-NPRSTV-Z]` under `i`. -/
def caLetter2 (c : Char) : Bool := "ABCEGHJKLMNPRSTVWXYZ".toList.contains c.toUpper

/-- `CA: /^[ABCEGHJ-NPRSTVXY]\d[ABCEGHJ-NPRSTV-Z] ?\d[ABCEGHJ-NPRSTV-Z]\d$/i`. -/
def caPostalTest : List Char → Bool :=
  rmatch (rseq (rchar caLetter1)
    (rseq (rchar isDigitC)
      (rseq (rchar caLetter2)
        (rseq (ropt (rchar (· = ' ')))
          (rseq (rchar isDigitC) (rseq (rchar caLetter2) (rchar isDigitC)))))))

/-- `ANY: /^[A-Z0-9]{3,10}$/i`. -/
def anyPostalTest : List Char → Bool :=
  rmatch (rrepRange (rchar fun c => isLetterCI c || isDigitC c) 3 10)

/-- `complexPatterns.postalCode[country]` as seen by `validate`: the four
own keys select their pattern; an `Object.prototype` member name finds a
truthy non-RegExp value through the prototype chain; any other key reads
`undefined`, and the `.test` property access throws. -/
def postalCodeRule (country : String) : Rule :=
  if country = "US" then .pattern usPostalTest
  else if country = "UK" then .pattern ukPostalTest
  else if country = "CA" then .pattern caPostalTest
  else if country = "ANY" then .pattern anyPostalTest
  else if country ∈ objectProtoKeys then
    .notPattern "TypeError: pattern.test is not a function"
  else .notPattern "TypeError: Cannot read properties of undefined (reading test)"

/-- `isValidPostalCode(code, country, mode)`. -/
def isValidPostalCode (t : Int) (elapsed : Nat) (code : List Char) (country : String)
    (mode : Option ValidatorMode) : ValidateOutput :=
  validate t elapsed code (postalCodeRule country) mode

/-! ## Crypto-address patterns (`complexPatterns.crypto`) -/

/-- The Base58-like class `[a-km-zA-HJ-NP-Z1-9]` of the BTC pattern. -/
def btcChar (c : Char) : Bool :=
  ('a' ≤ c && c ≤ 'k') || ('m' ≤ c && c ≤ 'z') ||
  ('A' ≤ c && c ≤ 'H') || ('J' ≤ c && c ≤ 'N') || ('P' ≤ c && c ≤ 'Z') ||
  ('1' ≤ c && c ≤ '9')

/-- `BTC: /^[13][a-km-zA-HJ-NP-Z1-9]{25,34}$/`. -/
def btcTest : List Char → Bool :=
  rmatch (rseq (rchar fun c => c = '1' || c = '3') (rrepRange (rchar btcChar) 25 34))

/-- `ETH: /^0x[a-fA-F0-9]{40}$/`. -/
def ethTest : List Char → Bool :=
  rmatch (rseq (rchar (· = '0')) (rseq (rchar (· = 'x')) (rrep (rchar isHexDigit) 40)))

/-- `complexPatterns.crypto[type]` as seen by `validate`; same lookup
behavior as `postalCodeRule`. -/
def cryptoRule (ty : String) : Rule :=
  if ty = "BTC" then .pattern btcTest
  else if ty = "ETH" then .pattern ethTest
  else if ty ∈ objectProtoKeys then
    .notPattern "TypeError: pattern.test is not a function"
  else .notPattern "TypeError: Cannot read properties of undefined (reading test)"

/-- `isValidCryptoAddress(address, type, mode)`. -/
def isValidCryptoAddress (t : Int) (elapsed : Nat) (address : List Char) (ty : String)
    (mode : Option ValidatorMode) : ValidateOutput :=
  validate t elapsed address (cryptoRule ty) mode

/-- Shape discipline of every engine output (for C2): verbose mode must
produce a `ValidationResult` record, default mode a plain boolean. -/
def outputShapeOk (mode : Option ValidatorMode) (o : ValidateOutput) : Bool :=
  match mode, o with
  | some .verbose, .result _ => true
  | none, .plain _ => true
  | _, _ => false

/-! ## Helper lemmas -/

/-- The engine output of `validate` always has the shape requested by the
mode, in every branch (timeout, evaluation, caught fault). -/
lemma outputShapeOk_validate (t : Int) (e : Nat) (v : List Char) (r : Rule)
    (mode : Option ValidatorMode) : outputShapeOk mode (validate t e v r mode) = true := by
  rcases mode with _ | m
  · unfold validate
    split
    · rfl
    · rcases ruleTest r v with b | s <;> rfl
  · cases m
    unfold validate
    split
    · rfl
    · rcases ruleTest r v with b | s <;> rfl

/-- `validate` on a non-RegExp rule, when the guard does not fire: the
thrown `TypeError` is caught and produces the mode-appropriate failure. -/
lemma validate_notPattern (t : Int) (elapsed : Nat) (value : List Char) (msg : String)
    (h : (elapsed : Int) ≤ effectiveTimeout t) :
    validate t elapsed value (.notPattern msg) none = .plain false ∧
    validate t elapsed value (.notPattern msg) (some .verbose) =
      .result { isValid := false, message := some ("Validation error: " ++ msg) } := by
  refine ⟨?_, ?_⟩ <;>
    · unfold validate
      rw [if_neg (not_lt.mpr h)]
      rfl

/-- The combination ternary of `isValidCoordinates` on two plain booleans
is their conjunction. -/
lemma coordCombine_plain (a b : Bool) : coordCombine (.plain a) (.plain b) = (a && b) := by
  cases a <;> rfl

/-! ## Claim theorems -/

/-- C2: for every operation, input and configuration, a call made with
mode `'verbose'` returns a `ValidationResult` record and a call made
without a mode returns a plain boolean; no call returns the other shape.
Stated for the engine `validate` (through which every named operation of
the class returns) and for each operation embedded in this file,
including `isValidCoordinates`, the only one that assembles its output
itself. -/
theorem claim2_output_shape :
    (∀ (t : Int) (e : Nat) (v : List Char) (r : Rule) (mode : Option ValidatorMode),
      outputShapeOk mode (validate t e v r mode) = true) ∧
    (∀ (t : Int) (e1 e2 : Nat) (lat lng : List Char) (mode : Option ValidatorMode),
      outputShapeOk mode (isValidCoordinates t e1 e2 lat lng mode) = true) ∧
    (∀ (t : Int) (e : Nat) (d : List Char) (format : String) (mode : Option ValidatorMode),
      outputShapeOk mode (isValidDate t e d format mode) = true) ∧
    (∀ (t : Int) (e : Nat) (u : List Char) (mode : Option ValidatorMode),
      outputShapeOk mode (isValidUUID t e u mode) = true) ∧
    (∀ (t : Int) (e : Nat) (pw : List Char) (o : StrongPasswordOptions)
        (mode : Option ValidatorMode),
      outputShapeOk mode (isStrongPassword t e pw o mode) = true) ∧
    (∀ (t : Int) (e : Nat) (code : List Char) (country : String) (mode : Option ValidatorMode),
      outputShapeOk mode (isValidPostalCode t e code country mode) = true) ∧
    (∀ (t : Int) (e : Nat) (a : List Char) (ty : String) (mode : Option ValidatorMode),
      outputShapeOk mode (isValidCryptoAddress t e a ty mode) = true) := by
  refine ⟨outputShapeOk_validate, ?_, ?_, ?_, ?_, ?_, ?_⟩
  · intro t e1 e2 lat lng mode
    rcases mode with _ | m
    · rfl
    · cases m; rfl
  · intro t e d format mode
    exact outputShapeOk_validate _ _ _ _ _
  · intro t e u mode
    exact outputShapeOk_validate _ _ _ _ _
  · intro t e pw o mode
    exact outputShapeOk_validate _ _ _ _ _
  · intro t e code country mode
    exact outputShapeOk_validate _ _ _ _ _
  · intro t e a ty mode
    exact outputShapeOk_validate _ _ _ _ _

/-- C10: a validator constructed with an explicit `timeout: 0` behaves
exactly like one constructed with the default timeout of 5000, on every
value, rule, elapsed time and mode, because the guard reads
`this.options.timeout || 5000` and `0` is falsy.  Stated for the engine
and for the composite `isValidCoordinates`. -/
theorem claim10_zero_timeout_eq_default :
    (∀ (e : Nat) (v : List Char) (r : Rule) (mode : Option ValidatorMode),
      validate (validatorTimeout (some 0)) e v r mode =
        validate (validatorTimeout none) e v r mode) ∧
    (∀ (e1 e2 : Nat) (lat lng : List Char) (mode : Option ValidatorMode),
      isValidCoordinates (validatorTimeout (some 0)) e1 e2 lat lng mode =
        isValidCoordinates (validatorTimeout none) e1 e2 lat lng mode) := by
  have h : ∀ (e : Nat) (v : List Char) (r : Rule) (mode : Option ValidatorMode),
      validate (validatorTimeout (some 0)) e v r mode =
        validate (validatorTimeout none) e v r mode := by
    intro e v r mode
    unfold validate
    rfl
  exact ⟨h, fun e1 e2 lat lng mode => by unfold isValidCoordinates; rw [h, h]⟩

/-- C5: a runtime fault thrown while the rule is being evaluated (modelled
by a `notPattern` rule, whose `.test` call throws) is caught by the
engine's try/catch and surfaces as plain `false` in default mode and as a
record with `isValid: false` and an error message in verbose mode; being a
total function, the embedded engine propagates nothing.  The hypothesis
restricts to calls whose pre-evaluation overhead stays within the budget,
since otherwise evaluation never starts and no fault is raised. -/
theorem claim5_eval_fault_caught (t : Int) (elapsed : Nat) (value : List Char) (msg : String)
    (h : (elapsed : Int) ≤ effectiveTimeout t) :
    validate t elapsed value (.notPattern msg) none = .plain false ∧
    validate t elapsed value (.notPattern msg) (some .verbose) =
      .result { isValid := false, message := some ("Validation error: " ++ msg) } :=
  validate_notPattern t elapsed value msg h

/-- Witness for C5 at a concrete call. -/
theorem claim5_eval_fault_caught_witness :
    validate 5000 0 "abc".toList (.notPattern "boom") none = .plain false ∧
    validate 5000 0 "abc".toList (.notPattern "boom") (some .verbose) =
      .result { isValid := false, message := some ("Validation error: " ++ "boom") } :=
  claim5_eval_fault_caught 5000 0 "abc".toList "boom" (by decide)

/-- C1 (code bug exhibit): in default mode `isValidCoordinates` is the
conjunction of the latitude and the longitude pattern, and the three
example calls of the spec evaluate as claimed; but in verbose mode the
returned `isValid` is `false` even on the valid pair, because the inner
`validate` calls receive the verbose mode and return records, so the
source combination `typeof latValid === 'boolean' ? ... : false` always
takes its `false` arm. -/
theorem claim1_coordinates_conjunction_and_verbose_bug :
    (∀ lat lng : List Char,
      isValidCoordinates (validatorTimeout none) 0 0 lat lng none =
        .plain (latitudeTest lat && longitudeTest lng)) ∧
    isValidCoordinates (validatorTimeout none) 0 0 "37.7749".toList "-122.4194".toList none =
      .plain true ∧
    isValidCoordinates (validatorTimeout none) 0 0 "90.0001".toList "45".toList none =
      .plain false ∧
    isValidCoordinates (validatorTimeout none) 0 0 "91".toList "200".toList none =
      .plain false ∧
    latitudeTest "37.7749".toList = true ∧
    longitudeTest "-122.4194".toList = true ∧
    isValidCoordinates (validatorTimeout none) 0 0 "37.7749".toList "-122.4194".toList
        (some .verbose) =
      .result { isValid := false, message := some "Both latitude and longitude must be valid" } := by
  refine ⟨?_, by decide, by decide, by decide, by decide, by decide, by decide⟩
  intro lat lng
  show (ValidateOutput.plain
      (coordCombine (validate _ _ _ _ _) (validate _ _ _ _ _))) = _
  rw [show validate (validatorTimeout none) 0 lat (.pattern latitudeTest) none =
        .plain (latitudeTest lat) from rfl,
      show validate (validatorTimeout none) 0 lng (.pattern longitudeTest) none =
        .plain (longitudeTest lng) from rfl,
      coordCombine_plain]

/-- C4 (counterexample): `'toString'` is not one of the four recognized
orderings, yet `isValidDate` does not fall back to `DD/MM/YYYY` for it:
the index read finds the truthy `Object.prototype.toString` through the
prototype chain, the `|| patterns['DD/MM/YYYY']` fallback is skipped, and
the `.test` call throws inside the guarded evaluation, so the call
returns `false` where the `DD/MM/YYYY` pattern accepts. -/
theorem claim4_counterexample :
    isValidDate (validatorTimeout none) 0 "31/12/2023".toList "toString" none = .plain false ∧
    isValidDate (validatorTimeout none) 0 "31/12/2023".toList "DD/MM/YYYY" none =
      .plain true := by
  constructor <;> decide

/-- C4 (amended): for every format selector that is neither one of the
four recognized orderings nor an own property name of `Object.prototype`,
`isValidDate` behaves exactly as with the `'DD/MM/YYYY'` selector, on
every date, configuration and mode; in particular
`isValidDate('31/13/2023','BAD-FORMAT')` is evaluated against the
`DD/MM/YYYY` pattern and is false, month 13 being out of range. -/
theorem claim4_fallback (format : String)
    (h1 : format ∉ ["DD/MM/YYYY", "MM/DD/YYYY", "YYYY-MM-DD", "YYYY/MM/DD"])
    (h2 : format ∉ objectProtoKeys) :
    (∀ (t : Int) (e : Nat) (d : List Char) (mode : Option ValidatorMode),
      isValidDate t e d format mode = isValidDate t e d "DD/MM/YYYY" mode) ∧
    isValidDate (validatorTimeout none) 0 "31/13/2023".toList format none = .plain false := by
  simp only [List.mem_cons, List.mem_singleton, not_or] at h1
  obtain ⟨n1, n2, n3, n4, -⟩ := h1
  have hr : dateRule format = .pattern ddmmyyyyTest := by
    simp [dateRule, n1, n2, n3, n4, h2]
  refine ⟨fun t e d mode => ?_, ?_⟩
  · unfold isValidDate
    rw [hr]
    rfl
  · unfold isValidDate
    rw [hr]
    decide

/-- Witness for C4 at the selector of the spec example. -/
theorem claim4_fallback_witness :
    (∀ (t : Int) (e : Nat) (d : List Char) (mode : Option ValidatorMode),
      isValidDate t e d "BAD-FORMAT" mode = isValidDate t e d "DD/MM/YYYY" mode) ∧
    isValidDate (validatorTimeout none) 0 "31/13/2023".toList "BAD-FORMAT" none = .plain false :=
  claim4_fallback "BAD-FORMAT" (by decide) (by decide)

/-- C9: a discriminator key absent from the parameterized sub-table (a
country outside US/UK/CA/ANY, a coin outside BTC/ETH) fails closed: the
lookup yields either `undefined` or an inherited `Object.prototype`
member, the `.test` call throws inside the engine's try block, and the
call returns plain `false` in default mode or a record with
`isValid: false` and an error message in verbose mode. -/
theorem claim9_unknown_discriminator :
    (∀ country : String, country ∉ ["US", "UK", "CA", "ANY"] →
      ∀ (t : Int) (elapsed : Nat) (code : List Char),
        (elapsed : Int) ≤ effectiveTimeout t →
        isValidPostalCode t elapsed code country none = .plain false ∧
        ∃ m, isValidPostalCode t elapsed code country (some .verbose) =
          .result { isValid := false, message := some ("Validation error: " ++ m) }) ∧
    (∀ ty : String, ty ∉ ["BTC", "ETH"] →
      ∀ (t : Int) (elapsed : Nat) (address : List Char),
        (elapsed : Int) ≤ effectiveTimeout t →
        isValidCryptoAddress t elapsed address ty none = .plain false ∧
        ∃ m, isValidCryptoAddress t elapsed address ty (some .verbose) =
          .result { isValid := false, message := some ("Validation error: " ++ m) }) := by
  constructor
  · intro country h t elapsed code hel
    simp only [List.mem_cons, List.mem_singleton, not_or] at h
    obtain ⟨n1, n2, n3, n4, -⟩ := h
    have : ∃ m, postalCodeRule country = .notPattern m := by
      by_cases hp : country ∈ objectProtoKeys
      · exact ⟨"TypeError: pattern.test is not a function",
          by simp [postalCodeRule, n1, n2, n3, n4, hp]⟩
      · exact ⟨"TypeError: Cannot read properties of undefined (reading test)",
          by simp [postalCodeRule, n1, n2, n3, n4, hp]⟩
    obtain ⟨m, hm⟩ := this
    have h5 := validate_notPattern t elapsed code m hel
    unfold isValidPostalCode
    rw [hm]
    exact ⟨h5.1, m, h5.2⟩
  · intro ty h t elapsed address hel
    simp only [List.mem_cons, List.mem_singleton, not_or] at h
    obtain ⟨n1, n2, -⟩ := h
    have : ∃ m, cryptoRule ty = .notPattern m := by
      by_cases hp : ty ∈ objectProtoKeys
      · exact ⟨"TypeError: pattern.test is not a function",
          by simp [cryptoRule, n1, n2, hp]⟩
      · exact ⟨"TypeError: Cannot read properties of undefined (reading test)",
          by simp [cryptoRule, n1, n2, hp]⟩
    obtain ⟨m, hm⟩ := this
    have h5 := validate_notPattern t elapsed address m hel
    unfold isValidCryptoAddress
    rw [hm]
    exact ⟨h5.1, m, h5.2⟩

/-- Witness for C9 at the concrete keys `'DE'` and `'LTC'`. -/
theorem claim9_unknown_discriminator_witness :
    (isValidPostalCode 5000 0 "90210".toList "DE" none = .plain false ∧
      ∃ m, isValidPostalCode 5000 0 "90210".toList "DE" (some .verbose) =
        .result { isValid := false, message := some ("Validation error: " ++ m) }) ∧
    (isValidCryptoAddress 5000 0 "x".toList "LTC" none = .plain false ∧
      ∃ m, isValidCryptoAddress 5000 0 "x".toList "LTC" (some .verbose) =
        .result { isValid := false, message := some ("Validation error: " ++ m) }) :=
  ⟨claim9_unknown_discriminator.1 "DE" (by decide) 5000 0 "90210".toList (by decide),
   claim9_unknown_discriminator.2 "LTC" (by decide) 5000 0 "x".toList (by decide)⟩

/-- An error message produced by the catch branch never equals the fixed
timeout message, whatever the fault text. -/
lemma validationError_ne_timeout (m : String) :
    "Validation error: " ++ m ≠ "Validation timeout exceeded" := by
  intro h
  have h2 : ("Validation error: ").data ++ m.data = ("Validation timeout exceeded").data := by
    rw [← String.data_append, h]
  have hpre : ("Validation error: ").data <+: ("Validation timeout exceeded").data :=
    ⟨m.data, h2⟩
  exact absurd hpre (by decide)

/-- C6: for a non-negative configured timeout, the timeout outcome is
produced exactly when the overhead between the start of the call and the
guard read already exceeds the effective budget — the check performed
before pattern evaluation begins — and never once evaluation has started:
within budget, the call returns exactly what a zero-overhead call
returns, i.e. the outcome of the rule evaluation. -/
theorem claim6_timeout_only_pre_evaluation (t : Int) (ht : 0 ≤ t) (elapsed : Nat)
    (value : List Char) (rule : Rule) :
    (validate t elapsed value rule (some .verbose) =
        .result { isValid := false, message := some "Validation timeout exceeded" } ↔
      effectiveTimeout t < (elapsed : Int)) ∧
    ((elapsed : Int) ≤ effectiveTimeout t →
      ∀ mode : Option ValidatorMode,
        validate t elapsed value rule mode = validate t 0 value rule mode) := by
  have heff : 0 ≤ effectiveTimeout t := by
    unfold effectiveTimeout
    split
    · norm_num
    · exact ht
  have heff0 : ¬(((0 : Nat) : Int) > effectiveTimeout t) := by
    simpa using not_lt.mpr heff
  by_cases hgt : effectiveTimeout t < (elapsed : Int)
  · refine ⟨⟨fun _ => hgt, fun _ => ?_⟩, fun hle _ => absurd hgt (not_lt.mpr hle)⟩
    unfold validate
    rw [if_pos hgt]
  · have hle : (elapsed : Int) ≤ effectiveTimeout t := not_lt.mp hgt
    constructor
    · refine ⟨fun h => ?_, fun h => absurd h hgt⟩
      exfalso
      revert h
      unfold validate
      rw [if_neg hgt]
      cases hr : ruleTest rule value with
      | ok b =>
          intro h
          simp [ValidateOutput.result.injEq, ValidationResult.mk.injEq] at h
      | error e =>
          intro h
          simp only [ValidateOutput.result.injEq, ValidationResult.mk.injEq,
            Option.some.injEq, true_and, and_true] at h
          exact validationError_ne_timeout e h
    · intro _ mode
      unfold validate
      rw [if_neg hgt, if_neg heff0]

/-- Witness for C6 at a concrete within-budget call. -/
theorem claim6_timeout_only_pre_evaluation_witness :
    ((validate 5000 0 "ab".toList (.pattern latitudeTest) (some .verbose) =
        .result { isValid := false, message := some "Validation timeout exceeded" } ↔
      effectiveTimeout 5000 < ((0 : Nat) : Int)) ∧
    (((0 : Nat) : Int) ≤ effectiveTimeout 5000 →
      ∀ mode : Option ValidatorMode,
        validate 5000 0 "ab".toList (.pattern latitudeTest) mode =
          validate 5000 0 "ab".toList (.pattern latitudeTest) mode)) :=
  claim6_timeout_only_pre_evaluation 5000 (by decide) 0 "ab".toList (.pattern latitudeTest)

/-- On a string whose characters are all `.`-matchable, the lookahead
`(?=.*[p])` tests exactly containment of a `p` character. -/
lemma lookaheadDotStar_eq_any (p : Char → Bool) :
    ∀ {s : List Char}, s.all isDotChar = true → lookaheadDotStar p s = s.any p := by
  intro s
  induction s with
  | nil => intro _; rfl
  | cons c rest ih =>
      intro h
      rw [List.all_cons, Bool.and_eq_true] at h
      unfold lookaheadDotStar
      rw [List.any_cons, h.1, ih h.2]
      simp

/-- The custom policy of the spec's strong-password example:
`\x7b minLength: 6, requireUppercase: false, requireSpecialChars: false \x7d`. -/
def examplePolicy : StrongPasswordOptions :=
  { minLength := some 6, requireUppercase := some false, requireSpecialChars := some false }

/-- A policy with a zero minimum length and every toggle off. -/
def zeroMinPolicy : StrongPasswordOptions :=
  { minLength := some 0, requireUppercase := some false,
    requireNumbers := some false, requireSpecialChars := some false }

/-- A policy with a negative minimum length and every toggle off. -/
def negMinPolicy : StrongPasswordOptions :=
  { minLength := some (-1), requireUppercase := some false,
    requireNumbers := some false, requireSpecialChars := some false }

/-- C3 (counterexample): under the default policy, the password
`"Passw0rd!\n"` has length at least 8, an uppercase letter, a digit and a
special character — the claimed conjunction holds — yet `isStrongPassword`
rejects it, because the assembled `.\x7b8,\x7d` body cannot match the
line-terminator character. -/
theorem claim3_counterexample :
    isStrongPassword (validatorTimeout none) 0 "Passw0rd!\n".toList {} none = .plain false ∧
    8 ≤ "Passw0rd!\n".toList.length ∧
    "Passw0rd!\n".toList.any isUpperAZ = true ∧
    "Passw0rd!\n".toList.any isDigitC = true ∧
    "Passw0rd!\n".toList.any isSpecialPwChar = true := by
  refine ⟨by decide, by decide, by decide, by decide, by decide⟩

/-- C3 (amended): for every password free of line-terminator characters
and every policy whose merged `minLength` is non-negative,
`isStrongPassword` passes exactly when the pure conjunction holds of: an
uppercase letter present if required, a digit present if required, one of
the fixed special characters present if required, and length at least
`minLength` — a conjunction of independent tests, so the assembly order
of the look-ahead sub-conditions cannot change the result; in particular
the two example calls of the spec evaluate as claimed. -/
theorem claim3_policy_conjunction (pw : List Char) (o : StrongPasswordOptions)
    (hdot : pw.all isDotChar = true) (hmin : 0 ≤ (mergeOptions o).minLength) :
    isStrongPassword (validatorTimeout none) 0 pw o none =
      .plain ((!(mergeOptions o).requireUppercase || pw.any isUpperAZ) &&
              (!(mergeOptions o).requireNumbers || pw.any isDigitC) &&
              (!(mergeOptions o).requireSpecialChars || pw.any isSpecialPwChar) &&
              decide ((mergeOptions o).minLength ≤ (pw.length : Int))) ∧
    isStrongPassword (validatorTimeout none) 0 "password123".toList examplePolicy none =
      .plain true ∧
    isStrongPassword (validatorTimeout none) 0 "short".toList {} none = .plain false := by
  refine ⟨?_, by decide, by decide⟩
  show ValidateOutput.plain (strongPasswordTest (mergeOptions o) pw) = _
  unfold strongPasswordTest dotMinBody
  rw [if_pos hmin, hdot,
      lookaheadDotStar_eq_any isUpperAZ hdot,
      lookaheadDotStar_eq_any isDigitC hdot,
      lookaheadDotStar_eq_any isSpecialPwChar hdot]
  simp [Bool.and_assoc]

/-- Witness for C3 at the spec's custom-policy example. -/
theorem claim3_policy_conjunction_witness :
    isStrongPassword (validatorTimeout none) 0 "password123".toList examplePolicy none =
      .plain ((!(mergeOptions examplePolicy).requireUppercase ||
               "password123".toList.any isUpperAZ) &&
              (!(mergeOptions examplePolicy).requireNumbers ||
               "password123".toList.any isDigitC) &&
              (!(mergeOptions examplePolicy).requireSpecialChars ||
               "password123".toList.any isSpecialPwChar) &&
              decide ((mergeOptions examplePolicy).minLength ≤
                ("password123".toList.length : Int))) ∧
    isStrongPassword (validatorTimeout none) 0 "password123".toList examplePolicy none =
      .plain true ∧
    isStrongPassword (validatorTimeout none) 0 "short".toList {} none = .plain false :=
  claim3_policy_conjunction "password123".toList examplePolicy (by decide) (by decide)

/-- C8 (counterexample): with a negative `minLength` (and every
character-class toggle off) the empty string does not pass: the spliced
`.\x7b-1,\x7d` is not a valid quantifier, is parsed as literal text, and
the resulting pattern rejects the empty string, so the length requirement
is not absent. -/
theorem claim8_counterexample :
    isStrongPassword (validatorTimeout none) 0 [] negMinPolicy none = .plain false := by
  decide

/-- C8 (amended): a `minLength` of 0 does remove the length requirement —
every password free of line terminators, including the empty string,
passes with the character-class toggles off; but a negative `minLength`
does not: the invalid quantifier text is matched literally, so for
example only `"a\x7b-1,\x7d"`-like strings match it while the empty
string fails (see the counterexample). -/
theorem claim8_min_length_zero_or_negative (pw : List Char)
    (hdot : pw.all isDotChar = true) :
    isStrongPassword (validatorTimeout none) 0 pw zeroMinPolicy none = .plain true ∧
    isStrongPassword (validatorTimeout none) 0 "a\x7b-1,\x7d".toList negMinPolicy none =
      .plain true := by
  refine ⟨?_, by decide⟩
  show ValidateOutput.plain (strongPasswordTest _ pw) = _
  unfold strongPasswordTest dotMinBody
  simp [zeroMinPolicy, mergeOptions, hdot]

/-- Witness for C8 on the empty password. -/
theorem claim8_min_length_zero_or_negative_witness :
    isStrongPassword (validatorTimeout none) 0 [] zeroMinPolicy none = .plain true ∧
    isStrongPassword (validatorTimeout none) 0 "a\x7b-1,\x7d".toList negMinPolicy none =
      .plain true :=
  claim8_min_length_zero_or_negative [] (by decide)

/-- Characterization of `expectDash`. -/
lemma expectDash_eq_some {s r : List Char} : expectDash s = some r ↔ s = '-' :: r := by
  cases s with
  | nil => simp [expectDash]
  | cons c cs =>
      by_cases hc : c = '-'
      · subst hc
        simp [expectDash]
      · simp [expectDash, hc]

/-- Characterization of `takeClass`: success on remainder `r` means the
input splits into a length-`n` all-`p` block followed by `r`. -/
lemma takeClass_eq_some {p : Char → Bool} :
    ∀ {n : Nat} {s r : List Char},
      takeClass p n s = some r ↔ ∃ u, s = u ++ r ∧ u.length = n ∧ u.all p = true := by
  intro n
  induction n with
  | zero =>
      intro s r
      constructor
      · intro h
        have hs : s = r := by simpa [takeClass] using h
        exact ⟨[], by simp [hs], rfl, rfl⟩
      · rintro ⟨u, rfl, hlen, -⟩
        have hu : u = [] := List.length_eq_zero.mp hlen
        subst hu
        simp [takeClass]
  | succ n ih =>
      intro s r
      cases s with
      | nil =>
          constructor
          · intro h
            exact Option.noConfusion h
          · rintro ⟨u, hu, hlen, -⟩
            exfalso
            have := (List.append_eq_nil.mp hu.symm).1
            subst this
            simp at hlen
      | cons c cs =>
          show (if p c then takeClass p n cs else none) = some r ↔ _
          by_cases hp : p c
          · rw [if_pos hp, ih]
            constructor
            · rintro ⟨u, rfl, hlen, hall⟩
              exact ⟨c :: u, rfl, by simp [hlen], by simp [hall, hp]⟩
            · rintro ⟨u, hu, hlen, hall⟩
              cases u with
              | nil => simp at hlen
              | cons a u2 =>
                  injection hu with h1 h2
                  subst h1
                  simp only [List.all_cons, Bool.and_eq_true] at hall
                  exact ⟨u2, h2, by simpa using hlen, hall.2⟩
          · rw [if_neg hp]
            constructor
            · intro h
              exact Option.noConfusion h
            · rintro ⟨u, hu, hlen, hall⟩
              exfalso
              cases u with
              | nil => simp at hlen
              | cons a u2 =>
                  injection hu with h1 h2
                  subst h1
                  simp only [List.all_cons, Bool.and_eq_true] at hall
                  exact hp hall.1

/-- The decomposition described by the UUID pattern, generic in the
version and variant character classes. -/
def UuidParts (ver var : Char → Bool) (s : List Char) : Prop :=
  ∃ (g1 g2 g3 g4 g5 : List Char) (c d : Char),
    s = g1 ++ '-' :: (g2 ++ '-' :: c :: (g3 ++ '-' :: d :: (g4 ++ '-' :: g5))) ∧
    g1.length = 8 ∧ g1.all isHexDigit = true ∧
    g2.length = 4 ∧ g2.all isHexDigit = true ∧
    ver c = true ∧
    g3.length = 3 ∧ g3.all isHexDigit = true ∧
    var d = true ∧
    g4.length = 3 ∧ g4.all isHexDigit = true ∧
    g5.length = 12 ∧ g5.all isHexDigit = true

/-- Whole-string success of the UUID chain is exactly the dashed
8-4-4-4-12 decomposition with the given nibble classes. -/
lemma uuidChain_eq_some_nil {ver var : Char → Bool} {s : List Char} :
    uuidChain ver var s = some [] ↔ UuidParts ver var s := by
  constructor
  · intro h
    unfold uuidChain at h
    simp only [Option.bind_eq_some] at h
    obtain ⟨s1, h1, s2, h2, s3, h3, s4, h4, s5, h5, s6, h6, s7, h7, s8, h8, s9, h9,
      s10, h10, h11⟩ := h
    rw [takeClass_eq_some] at h1 h3 h5 h6 h8 h9 h11
    rw [expectDash_eq_some] at h2 h4 h7 h10
    obtain ⟨g1, rfl, hg1l, hg1a⟩ := h1
    obtain ⟨g2, rfl, hg2l, hg2a⟩ := h3
    obtain ⟨u5, rfl, hu5l, hu5a⟩ := h5
    obtain ⟨g3, rfl, hg3l, hg3a⟩ := h6
    obtain ⟨u8, rfl, hu8l, hu8a⟩ := h8
    obtain ⟨g4, rfl, hg4l, hg4a⟩ := h9
    obtain ⟨g5, rfl, hg5l, hg5a⟩ := h11
    obtain ⟨c, rfl⟩ := List.length_eq_one.mp hu5l
    obtain ⟨d, rfl⟩ := List.length_eq_one.mp hu8l
    simp only [List.all_cons, List.all_nil, Bool.and_true] at hu5a hu8a
    subst h2 h4 h7 h10
    refine ⟨g1, g2, g3, g4, g5, c, d, by simp, hg1l, hg1a, hg2l, hg2a, hu5a,
      hg3l, hg3a, hu8a, hg4l, hg4a, hg5l, hg5a⟩
  · rintro ⟨g1, g2, g3, g4, g5, c, d, rfl, hg1l, hg1a, hg2l, hg2a, hc,
      hg3l, hg3a, hd, hg4l, hg4a, hg5l, hg5a⟩
    unfold uuidChain
    simp only [Option.bind_eq_some]
    refine ⟨'-' :: (g2 ++ '-' :: c :: (g3 ++ '-' :: d :: (g4 ++ '-' :: g5))),
      takeClass_eq_some.mpr ⟨g1, rfl, hg1l, hg1a⟩,
      g2 ++ '-' :: c :: (g3 ++ '-' :: d :: (g4 ++ '-' :: g5)),
      expectDash_eq_some.mpr rfl,
      '-' :: c :: (g3 ++ '-' :: d :: (g4 ++ '-' :: g5)),
      takeClass_eq_some.mpr ⟨g2, rfl, hg2l, hg2a⟩,
      c :: (g3 ++ '-' :: d :: (g4 ++ '-' :: g5)),
      expectDash_eq_some.mpr rfl,
      g3 ++ '-' :: d :: (g4 ++ '-' :: g5),
      takeClass_eq_some.mpr ⟨[c], rfl, rfl, by simp [hc]⟩,
      '-' :: d :: (g4 ++ '-' :: g5),
      takeClass_eq_some.mpr ⟨g3, rfl, hg3l, hg3a⟩,
      d :: (g4 ++ '-' :: g5),
      expectDash_eq_some.mpr rfl,
      g4 ++ '-' :: g5,
      takeClass_eq_some.mpr ⟨[d], rfl, rfl, by simp [hd]⟩,
      '-' :: g5,
      takeClass_eq_some.mpr ⟨g4, rfl, hg4l, hg4a⟩,
      g5,
      expectDash_eq_some.mpr rfl,
      takeClass_eq_some.mpr ⟨g5, by simp, hg5l, hg5a⟩⟩

/-- The element at the position given by the length of the block before a
cons cell is that cell's head. -/
lemma getElem?_append_cons (l : List Char) (a : Char) (r : List Char) (n : Nat)
    (h : l.length = n) : (l ++ a :: r)[n]? = some a := by
  subst h
  rw [List.getElem?_append_right (le_refl _)]
  simp

/-- In a UUID decomposition, position 14 holds the version nibble and
position 19 the variant nibble. -/
lemma uuid_parts_getElem {g1 g2 g3 : List Char} (c d : Char) (R : List Char)
    (h1 : g1.length = 8) (h2 : g2.length = 4) (h3 : g3.length = 3) :
    (g1 ++ '-' :: (g2 ++ '-' :: c :: (g3 ++ '-' :: d :: R)))[14]? = some c ∧
    (g1 ++ '-' :: (g2 ++ '-' :: c :: (g3 ++ '-' :: d :: R)))[19]? = some d := by
  constructor
  · have e14 : g1 ++ '-' :: (g2 ++ '-' :: c :: (g3 ++ '-' :: d :: R)) =
        (g1 ++ '-' :: (g2 ++ ['-'])) ++ c :: (g3 ++ '-' :: d :: R) := by
      simp
    rw [e14, getElem?_append_cons _ _ _ 14 (by simp [h1, h2])]
  · have e19 : g1 ++ '-' :: (g2 ++ '-' :: c :: (g3 ++ '-' :: d :: R)) =
        (g1 ++ '-' :: (g2 ++ '-' :: c :: (g3 ++ ['-']))) ++ d :: R := by
      simp
    rw [e19, getElem?_append_cons _ _ _ 19 (by simp [h1, h2, h3])]

/-- A version nibble (`1`–`5`) is a hex digit. -/
lemma versionNibble_isHex {c : Char} (h : isVersionNibble c = true) : isHexDigit c = true := by
  simp only [isVersionNibble, Bool.and_eq_true, decide_eq_true_eq] at h
  have lo : '0' ≤ c := le_trans (by decide) h.1
  have hi : c ≤ '9' := le_trans h.2 (by decide)
  simp [isHexDigit, isDigitC, lo, hi]

/-- A variant nibble (`8`, `9`, `a`, `b`, `A`, `B`) is a hex digit. -/
lemma variantNibble_isHex {c : Char} (h : isVariantNibble c = true) : isHexDigit c = true := by
  simp only [isVariantNibble, Bool.or_eq_true, decide_eq_true_eq] at h
  rcases h with ((((h | h) | h) | h) | h) | h <;> subst h <;> decide

/-- C7: a string is accepted by `isValidUUID`'s pattern exactly when it
has the correct dashed 8-4-4-4-12 hex shape, its version nibble (first
hex digit of the third group, position 14) is in `1`–`5`, and its variant
nibble (first hex digit of the fourth group, position 19) is one of
`8`, `9`, `a`, `b` case-insensitively.  In particular every accepted
string satisfies both restrictions, and every string of otherwise correct
shape violating either one is rejected. -/
theorem claim7_uuid_version_variant (s : List Char) :
    uuidTest s = true ↔
      (uuidShapeSpec s = true ∧ versionNibbleOk s = true ∧ variantNibbleOk s = true) := by
  unfold uuidTest uuidShapeSpec
  rw [decide_eq_true_eq, decide_eq_true_eq, uuidChain_eq_some_nil, uuidChain_eq_some_nil]
  constructor
  · rintro ⟨g1, g2, g3, g4, g5, c, d, rfl, hg1l, hg1a, hg2l, hg2a, hc,
      hg3l, hg3a, hd, hg4l, hg4a, hg5l, hg5a⟩
    have hpos := uuid_parts_getElem c d (g4 ++ '-' :: g5) hg1l hg2l hg3l
    refine ⟨⟨g1, g2, g3, g4, g5, c, d, rfl, hg1l, hg1a, hg2l, hg2a,
      versionNibble_isHex hc, hg3l, hg3a, variantNibble_isHex hd, hg4l, hg4a, hg5l, hg5a⟩,
      ?_, ?_⟩
    · unfold versionNibbleOk
      rw [hpos.1]
      simpa [Option.any] using hc
    · unfold variantNibbleOk
      rw [hpos.2]
      simpa [Option.any] using hd
  · rintro ⟨⟨g1, g2, g3, g4, g5, c, d, rfl, hg1l, hg1a, hg2l, hg2a, -,
      hg3l, hg3a, -, hg4l, hg4a, hg5l, hg5a⟩, hver, hvar⟩
    have hpos := uuid_parts_getElem c d (g4 ++ '-' :: g5) hg1l hg2l hg3l
    unfold versionNibbleOk at hver
    unfold variantNibbleOk at hvar
    rw [hpos.1] at hver
    rw [hpos.2] at hvar
    simp only [Option.any] at hver hvar
    exact ⟨g1, g2, g3, g4, g5, c, d, rfl, hg1l, hg1a, hg2l, hg2a, hver,
      hg3l, hg3a, hvar, hg4l, hg4a, hg5l, hg5a⟩

end RegexValidify
